import Mathlib

/-!
Shallow embedding of the accounting-integrity layer of the erpnext-mcp-server
repository (src/src/index.ts, src/src/types.ts): the journal-entry validator,
journal-entry creation and submission, the bank-transaction search residual
filter, the create_journal_entry tool handler, and (modelled from the spec) the
batch orchestrator.  Money amounts are modelled as rationals; JavaScript's
`Math.round(x * 100) / 100` becomes `round2`.  Error and warning messages,
which the source builds by string interpolation, are modelled as inductive
values carrying the interpolated data.
-/

attribute [local semireducible] Rat.add Rat.sub Rat.mul Rat.inv

namespace ErpNext

/-- JavaScript `Math.round`: rounds half toward positive infinity.
`Rat.floor` is the integer floor (`jsRound_eq_floor` below). -/
def jsRound (x : ℚ) : ℤ := Rat.floor (x + mkRat 1 2)

/-- `Math.round(x * 100) / 100` from the source: round to cents
(`round2_eq_div` below identifies `mkRat _ 100` with division by 100). -/
def round2 (x : ℚ) : ℚ := mkRat (jsRound (x * 100)) 100

/-- JavaScript `Math.abs` (`jsAbs_eq_abs` below). -/
def jsAbs (x : ℚ) : ℚ := if x < 0 then -x else x

/-- One line of a journal entry (types.ts `JournalEntryAccount`).
Optional numeric fields are `Option ℚ`; the source reads them as
`account.debit_in_account_currency || 0`. -/
structure JournalEntryAccount where
  account : String
  debit_in_account_currency : Option ℚ := none
  credit_in_account_currency : Option ℚ := none
  user_remark : Option String := none
deriving DecidableEq, Repr

/-- A journal-entry draft (types.ts `JournalEntry`).  `posting_date` and
`company` are required strings in the source; JavaScript truthiness makes the
empty string behave as missing in `validateJournalEntry`. -/
structure JournalEntry where
  posting_date : String
  company : String
  accounts : List JournalEntryAccount
  user_remark : Option String := none
deriving DecidableEq, Repr

/-- The error messages `validateJournalEntry` can push, with the data the
source interpolates into each message string. -/
inductive JEError where
  | postingDateRequired
  | companyRequired
  | atLeastOneAccountRequired
  | atLeastTwoAccountEntries
  | accountNameRequired
  | neitherDebitNorCredit (account : String)
  | debitsNotEqualCredits (total_debit total_credit difference : ℚ)
deriving DecidableEq, Repr

/-- The warning messages `validateJournalEntry` can push. -/
inductive JEWarning where
  | bothDebitAndCredit (account : String)
deriving DecidableEq, Repr

/-- types.ts `JournalEntryValidation`. -/
structure JournalEntryValidation where
  is_valid : Bool
  total_debit : ℚ
  total_credit : ℚ
  difference : ℚ
  errors : List JEError
  warnings : List JEWarning
deriving DecidableEq, Repr

/-- The body of the per-account loop of `validateJournalEntry`
(index.ts lines 484-506): skip lines with a missing account name,
accumulate the totals, warn when both sides are positive, error when
both sides are zero. -/
def validateAccountStep (v : JournalEntryValidation) (a : JournalEntryAccount) :
    JournalEntryValidation :=
  if a.account = "" then
    { v with errors := v.errors ++ [.accountNameRequired], is_valid := false }
  else
    let debit := a.debit_in_account_currency.getD 0
    let credit := a.credit_in_account_currency.getD 0
    let v1 := { v with total_debit := v.total_debit + debit,
                       total_credit := v.total_credit + credit }
    let v2 := if 0 < debit ∧ 0 < credit then
        { v1 with warnings := v1.warnings ++ [.bothDebitAndCredit a.account] }
      else v1
    if debit = 0 ∧ credit = 0 then
      { v2 with errors := v2.errors ++ [.neitherDebitNorCredit a.account],
                is_valid := false }
    else v2

/-- The initial `validation` object of `validateJournalEntry`
(index.ts lines 451-458). -/
def initialValidation : JournalEntryValidation :=
  { is_valid := true, total_debit := 0, total_credit := 0, difference := 0,
    errors := [], warnings := [] }

/-- The required-field checks of `validateJournalEntry`
(index.ts lines 461-469): a falsy (empty) `posting_date` or `company`
pushes an error. -/
def checkRequiredFields (je : JournalEntry) (v : JournalEntryValidation) :
    JournalEntryValidation :=
  let v1 := if je.posting_date = "" then
      { v with errors := v.errors ++ [.postingDateRequired], is_valid := false }
    else v
  if je.company = "" then
    { v1 with errors := v1.errors ++ [.companyRequired], is_valid := false }
  else v1

/-- The rounding and balance check of `validateJournalEntry`
(index.ts lines 508-517): round the totals and their difference to cents and
error when the absolute difference exceeds 0.01. -/
def finalizeTotals (v : JournalEntryValidation) : JournalEntryValidation :=
  let td := round2 v.total_debit
  let tc := round2 v.total_credit
  let diff := round2 (td - tc)
  let v5 := { v with total_debit := td, total_credit := tc, difference := diff }
  if mkRat 1 100 < jsAbs diff then
    { v5 with errors := v5.errors ++ [.debitsNotEqualCredits td tc diff],
              is_valid := false }
  else v5

/-- The minimum-line-count check of `validateJournalEntry`
(index.ts lines 478-481): fewer than 2 account lines pushes an error but
checking continues. -/
def checkMinimumLines (je : JournalEntry) (v : JournalEntryValidation) :
    JournalEntryValidation :=
  if je.accounts.length < 2 then
    { v with errors := v.errors ++ [.atLeastTwoAccountEntries], is_valid := false }
  else v

/-- index.ts `validateJournalEntry` (lines 450-520). -/
def validateJournalEntry (je : JournalEntry) : JournalEntryValidation :=
  let v2 := checkRequiredFields je initialValidation
  if je.accounts = [] then
    { v2 with errors := v2.errors ++ [.atLeastOneAccountRequired], is_valid := false }
  else
    finalizeTotals (je.accounts.foldl validateAccountStep (checkMinimumLines je v2))

/-- The debit total the per-account loop accumulates: lines with a missing
account name are skipped (`continue`), all others contribute
`debit_in_account_currency || 0`. -/
def sumDebits (l : List JournalEntryAccount) : ℚ :=
  (l.map fun a =>
    if a.account = "" then 0 else a.debit_in_account_currency.getD 0).sum

/-- The credit total the per-account loop accumulates. -/
def sumCredits (l : List JournalEntryAccount) : ℚ :=
  (l.map fun a =>
    if a.account = "" then 0 else a.credit_in_account_currency.getD 0).sum

/-! ## Bank-transaction search (residual amount filter) -/

/-- types.ts `BankTransaction` (the fields the search residual filter reads,
plus identifying fields). -/
structure BankTransaction where
  name : String
  date : String
  deposit : Option ℚ := none
  withdrawal : Option ℚ := none
  description : String := ""
  status : Option String := none
deriving DecidableEq, Repr

/-- `const amount = t.deposit || t.withdrawal || 0` (index.ts line 417):
JavaScript `||` keeps the first operand that is neither `undefined` nor `0`. -/
def txAmount (t : BankTransaction) : ℚ :=
  let d := t.deposit.getD 0
  let w := t.withdrawal.getD 0
  if d ≠ 0 then d else if w ≠ 0 then w else 0

/-- The body of the amount filter of `searchBankTransactions`
(index.ts lines 416-421). -/
def txKeep (minAmount maxAmount : Option ℚ) (t : BankTransaction) : Bool :=
  let amount := txAmount t
  if (match minAmount with | some m => decide (amount < m) | none => false) then false
  else if (match maxAmount with | some m => decide (m < amount) | none => false) then false
  else true

/-- The client-side residual amount filter of `searchBankTransactions`
(index.ts lines 412-424), applied to the candidate set returned by the
gateway. -/
def searchAmountFilter (minAmount maxAmount : Option ℚ)
    (transactions : List BankTransaction) : List BankTransaction :=
  if minAmount.isSome ∨ maxAmount.isSome then
    transactions.filter (txKeep minAmount maxAmount)
  else transactions

/-- The transaction amount as the spec words it: `deposit` if `deposit > 0`,
else `withdrawal`.  Stated from the spec, for comparison with the source's
`txAmount`. -/
def specAmount (t : BankTransaction) : ℚ :=
  if 0 < t.deposit.getD 0 then t.deposit.getD 0 else t.withdrawal.getD 0

/-! ## Gateway-facing client operations

The axios layer is modelled as an oracle `Gateway` giving the remote store's
response to each request; every operation returns, next to its result, the
list of network calls it issued. -/

/-- The name-carrying remote record a successful create call returns. -/
structure RemoteRecord where
  name : String
deriving DecidableEq, Repr

/-- One network request issued by the client. -/
inductive GatewayCall where
  | createDocPost (doctype : String) (payload : JournalEntry)
  | methodPost (methodPath : String) (docName : String)
deriving DecidableEq, Repr

/-- Oracle for the remote store's behaviour: what each request would return. -/
structure Gateway where
  createDocResponse : String → JournalEntry → Except String RemoteRecord
  submitResponse : String → Except String Unit

/-- The error values the client can throw, with the data the source
interpolates into each `Error` message. -/
inductive ErrMsg where
  | axiosError (s : String)
  | unknownError
  | failedToCreateDoc (doctype : String) (inner : ErrMsg)
  | failedToCallMethod (methodPath : String) (inner : ErrMsg)
  | validationFailed (errors : List JEError)
  | failedToCreateJournalEntry (inner : ErrMsg)
  | failedToSubmitJournalEntry (name : String) (inner : ErrMsg)
deriving DecidableEq, Repr

/-- `error?.message || 'Unknown error'`: an empty message falls back to
`'Unknown error'`. -/
def rawMsg (m : String) : ErrMsg :=
  if m = "" then .unknownError else .axiosError m

/-- index.ts `createDocument` (lines 110-120), specialised to journal-entry
payloads: POST `/api/resource/{doctype}`, wrapping failures as
`Failed to create {doctype}: ...`. -/
def createDocument (gw : Gateway) (doctype : String) (doc : JournalEntry) :
    Except ErrMsg RemoteRecord × List GatewayCall :=
  match gw.createDocResponse doctype doc with
  | .ok r => (.ok r, [.createDocPost doctype doc])
  | .error m => (.error (.failedToCreateDoc doctype (rawMsg m)), [.createDocPost doctype doc])

/-- index.ts `callMethod` (lines 197-204), specialised to
`frappe.client.submit`: POST `/api/method/{methodPath}`, wrapping failures as
`Failed to call method {methodPath}: ...`. -/
def callMethodSubmit (gw : Gateway) (docName : String) :
    Except ErrMsg Unit × List GatewayCall :=
  match gw.submitResponse docName with
  | .ok r => (.ok r, [.methodPost "frappe.client.submit" docName])
  | .error m =>
    (.error (.failedToCallMethod "frappe.client.submit" (rawMsg m)),
     [.methodPost "frappe.client.submit" docName])

/-- index.ts `submitJournalEntry` (lines 543-556): submit via
`frappe.client.submit`, wrapping failures as
`Failed to submit journal entry {name}: ...`. -/
def submitJournalEntry (gw : Gateway) (journalEntryName : String) :
    Except ErrMsg Unit × List GatewayCall :=
  match callMethodSubmit gw journalEntryName with
  | (.ok r, log) => (.ok r, log)
  | (.error e, log) => (.error (.failedToSubmitJournalEntry journalEntryName e), log)

/-- index.ts `createJournalEntry` (lines 523-540): validate unless skipped
(throwing `Journal entry validation failed: ...` on an invalid draft, before
any network call), then create the document; every failure is wrapped as
`Failed to create journal entry: ...` by the surrounding catch. -/
def createJournalEntry (gw : Gateway) (journalEntry : JournalEntry)
    (skipValidation : Bool) : Except ErrMsg RemoteRecord × List GatewayCall :=
  if skipValidation = false ∧ (validateJournalEntry journalEntry).is_valid = false then
    (.error (.failedToCreateJournalEntry
      (.validationFailed (validateJournalEntry journalEntry).errors)), [])
  else
    match createDocument gw "Journal Entry" journalEntry with
    | (.ok r, log) => (.ok r, log)
    | (.error e, log) => (.error (.failedToCreateJournalEntry e), log)

/-- index.ts `validateJournalEntry` viewed as a client operation: its body
awaits no axios request and reads only the draft, so as a gateway-facing
operation it returns its verdict with an empty call list, whatever the
gateway would answer. -/
def validateJournalEntryClient (_gw : Gateway) (je : JournalEntry) :
    JournalEntryValidation × List GatewayCall :=
  (validateJournalEntry je, [])

/-- Two consecutive validations of the same draft through the client. -/
def validateTwice (gw : Gateway) (je : JournalEntry) :
    (JournalEntryValidation × List GatewayCall) ×
      (JournalEntryValidation × List GatewayCall) :=
  let r1 := validateJournalEntryClient gw je
  let r2 := validateJournalEntryClient gw je
  (r1, r2)

/-- What the create_journal_entry tool handler replies. -/
inductive HandlerResult where
  | ok (name : String) (submitted : Bool)
  | errorText (e : ErrMsg)
  | notAuthenticated
  | missingJournalEntry
deriving DecidableEq, Repr

/-- The create_journal_entry tool handler (index.ts lines 1739-1788):
authentication gate, required-argument gate, create, then optional submit;
any thrown error is reported as an `isError` reply whose text is
`Failed to create journal entry: {message}`. -/
def createJournalEntryHandler (gw : Gateway) (authenticated : Bool)
    (journal_entry : Option JournalEntry) (skip_validation submit : Option Bool) :
    HandlerResult × List GatewayCall :=
  if authenticated = false then (.notAuthenticated, [])
  else
    match journal_entry with
    | none => (.missingJournalEntry, [])
    | some je =>
      let skipValidation := skip_validation.getD false
      let submitFlag := submit.getD false
      match createJournalEntry gw je skipValidation with
      | (.error e, log) => (.errorText (.failedToCreateJournalEntry e), log)
      | (.ok r, log) =>
        if submitFlag then
          match submitJournalEntry gw r.name with
          | (.ok _, log2) => (.ok r.name true, log ++ log2)
          | (.error e, log2) =>
            (.errorText (.failedToCreateJournalEntry e), log ++ log2)
        else (.ok r.name false, log)

/-! ## Batch orchestrator

Modelled from the spec: the repository exposes no `batchCreateJournalEntries`
in its source; spec section 4.2 defines the orchestrator `runBatch(entries,
autoSubmit, stopOnError)` processing entries strictly in input order,
validating each, creating valid ones through the gateway, optionally
submitting, and — when `stopOnError` holds and an entry fails — marking every
later entry `NotAttempted` without validating or sending it. -/

/-- Modelled from the spec: spec section 3, `BatchItemOutcome`. -/
inductive BatchItemOutcome where
  | Created (id : String) (submitted : Bool)
  | ValidationFailed (errors : List JEError)
  | GatewayFailed (message : String)
  | NotAttempted
deriving DecidableEq, Repr

/-- Modelled from the spec: spec section 3, `BatchResult`. -/
structure BatchResult where
  successCount : Nat
  errorCount : Nat
  outcomes : List BatchItemOutcome
deriving DecidableEq, Repr

/-- An observable action the orchestrator performs on entry `i`: running the
validator, or issuing a create or submit request. -/
inductive BatchEvent where
  | validated (i : Nat)
  | sentCreate (i : Nat)
  | sentSubmit (i : Nat)
deriving DecidableEq, Repr

/-- The entry index an event concerns. -/
def BatchEvent.idx : BatchEvent → Nat
  | .validated i => i
  | .sentCreate i => i
  | .sentSubmit i => i

/-- Outcomes counted by `successCount` (spec section 4.2: `Created`
regardless of the submission sub-result). -/
def BatchItemOutcome.isCreated : BatchItemOutcome → Bool
  | .Created _ _ => true
  | _ => false

/-- Outcomes counted by `errorCount` (spec section 4.2: `ValidationFailed`
plus `GatewayFailed`); these are also the outcomes that trigger the early
stop. -/
def BatchItemOutcome.isFailure : BatchItemOutcome → Bool
  | .ValidationFailed _ => true
  | .GatewayFailed _ => true
  | _ => false

/-- Modelled from the spec: one entry's pass through the per-entry state
machine of spec section 4.2 (`Validating`, `Creating`, optional
`Submitting`), returning its outcome and the events it caused. -/
def runBatchItem (gw : Gateway) (autoSubmit : Bool) (i : Nat) (je : JournalEntry) :
    BatchItemOutcome × List BatchEvent :=
  let validation := validateJournalEntry je
  if validation.is_valid = false then
    (.ValidationFailed validation.errors, [.validated i])
  else
    match gw.createDocResponse "Journal Entry" je with
    | .error m => (.GatewayFailed m, [.validated i, .sentCreate i])
    | .ok r =>
      if autoSubmit then
        match gw.submitResponse r.name with
        | .ok _ => (.Created r.name true, [.validated i, .sentCreate i, .sentSubmit i])
        | .error _ => (.Created r.name false, [.validated i, .sentCreate i, .sentSubmit i])
      else (.Created r.name false, [.validated i, .sentCreate i])

/-- Modelled from the spec: the sequential loop of spec section 4.2,
carrying the index of the entry being processed; after a failure with
`stopOnError`, every remaining entry gets outcome `NotAttempted` and causes
no event. -/
def runBatchGo (gw : Gateway) (autoSubmit stopOnError : Bool) :
    Nat → List JournalEntry → List BatchItemOutcome × List BatchEvent
  | _, [] => ([], [])
  | i, je :: rest =>
    let item := runBatchItem gw autoSubmit i je
    if stopOnError = true ∧ item.1.isFailure = true then
      (item.1 :: rest.map (fun _ => .NotAttempted), item.2)
    else
      let r := runBatchGo gw autoSubmit stopOnError (i + 1) rest
      (item.1 :: r.1, item.2 ++ r.2)

/-- Modelled from the spec: spec section 4.2
`runBatch(entries, autoSubmit, stopOnError) → BatchResult`, with the event
trace alongside. -/
def runBatch (gw : Gateway) (entries : List JournalEntry)
    (autoSubmit stopOnError : Bool) : BatchResult × List BatchEvent :=
  let r := runBatchGo gw autoSubmit stopOnError 0 entries
  ({ successCount := (r.1.filter BatchItemOutcome.isCreated).length,
     errorCount := (r.1.filter BatchItemOutcome.isFailure).length,
     outcomes := r.1 }, r.2)

/-! ## Concrete fixtures (used to instantiate the theorems below) -/

/-- The balanced salary example from the repository's documentation. -/
def jeBalanced : JournalEntry :=
  { posting_date := "2025-02-28", company := "Personal",
    accounts :=
      [ { account := "1111 - Checking - Personal",
          debit_in_account_currency := some 1500,
          credit_in_account_currency := some 0 },
        { account := "4100 - Salary Income - Personal",
          debit_in_account_currency := some 0,
          credit_in_account_currency := some 1500 } ] }

/-- An unbalanced draft: 100 of debit against 50 of credit. -/
def jeUnbal : JournalEntry :=
  { posting_date := "2025-02-15", company := "Personal",
    accounts :=
      [ { account := "5200 - Utilities - Personal",
          debit_in_account_currency := some 100,
          credit_in_account_currency := some 0 },
        { account := "1111 - Checking - Personal",
          debit_in_account_currency := some 0,
          credit_in_account_currency := some 50 } ] }

/-- Two lines with neither debit nor credit: totals balance (0 = 0) yet the
validator rejects the draft. -/
def jeZeroLines : JournalEntry :=
  { posting_date := "2025-02-15", company := "Personal",
    accounts :=
      [ { account := "5200 - Utilities - Personal",
          debit_in_account_currency := some 0,
          credit_in_account_currency := some 0 },
        { account := "1111 - Checking - Personal",
          debit_in_account_currency := some 0,
          credit_in_account_currency := some 0 } ] }

/-- A draft with an empty accounts array and falsy (empty) `posting_date`
and `company`. -/
def jeEmptyAll : JournalEntry :=
  { posting_date := "", company := "", accounts := [] }

/-- A draft with an empty accounts array but present `posting_date` and
`company`. -/
def jeEmptyAccounts : JournalEntry :=
  { posting_date := "2025-02-15", company := "Personal", accounts := [] }

/-- A single line carrying a negative amount on both sides. -/
def jeNegBoth : JournalEntry :=
  { posting_date := "2025-02-15", company := "Personal",
    accounts :=
      [ { account := "5200 - Utilities - Personal",
          debit_in_account_currency := some (-5),
          credit_in_account_currency := some (-5) } ] }

/-- A balanced draft holding one both-sides-negative line and one
both-sides-positive line. -/
def jeNegPos : JournalEntry :=
  { posting_date := "2025-02-15", company := "Personal",
    accounts :=
      [ { account := "5200 - Utilities - Personal",
          debit_in_account_currency := some (-5),
          credit_in_account_currency := some (-5) },
        { account := "1111 - Checking - Personal",
          debit_in_account_currency := some 5,
          credit_in_account_currency := some 5 } ] }

/-- A line with a positive amount on both sides. -/
def acctBothPos : JournalEntryAccount :=
  { account := "1111 - Checking - Personal",
    debit_in_account_currency := some 250,
    credit_in_account_currency := some 250 }

/-- A line with zero on both sides. -/
def acctZeroZero : JournalEntryAccount :=
  { account := "5200 - Utilities - Personal",
    debit_in_account_currency := some 0,
    credit_in_account_currency := some 0 }

/-- A balanced draft containing one both-sides-positive line among normal
lines. -/
def jeBothPos : JournalEntry :=
  { posting_date := "2025-02-15", company := "Personal",
    accounts :=
      [ { account := "5200 - Utilities - Personal",
          debit_in_account_currency := some 250,
          credit_in_account_currency := some 0 },
        acctBothPos,
        { account := "4100 - Salary Income - Personal",
          debit_in_account_currency := some 0,
          credit_in_account_currency := some 250 } ] }

/-- The 1500 deposit of spec test 7. -/
def txDeposit1500 : BankTransaction :=
  { name := "BT-0001", date := "2025-02-28", deposit := some 1500,
    withdrawal := some 0, description := "Salary Deposit" }

/-- The 250 withdrawal of spec test 7. -/
def txWithdraw250 : BankTransaction :=
  { name := "BT-0002", date := "2025-02-15", deposit := some 0,
    withdrawal := some 250, description := "Utility Payment" }

/-- The 45.5 withdrawal of spec test 7. -/
def txWithdraw45 : BankTransaction :=
  { name := "BT-0003", date := "2025-02-10", deposit := some 0,
    withdrawal := some (mkRat 455 10), description := "Grocery Store" }

/-- A transaction with a negative deposit next to a positive withdrawal:
JavaScript `||` keeps the (truthy) negative deposit. -/
def txNegDeposit : BankTransaction :=
  { name := "BT-0004", date := "2025-02-12", deposit := some (-5),
    withdrawal := some 250, description := "Chargeback" }

/-- A gateway whose create and submit calls all succeed. -/
def gwAllOk : Gateway :=
  { createDocResponse := fun _ _ => .ok { name := "JV-2025-00001" },
    submitResponse := fun _ => .ok () }

/-- A gateway that creates successfully but fails every submit call. -/
def gwSubmitFails : Gateway :=
  { createDocResponse := fun _ _ => .ok { name := "JV-2025-00001" },
    submitResponse := fun _ => .error "Request failed with status code 417" }

end ErpNext

namespace ErpNext

/-! ## Bridging lemmas for the JavaScript arithmetic primitives -/

theorem jsRound_eq_floor (x : ℚ) : jsRound x = ⌊x + 1/2⌋ := by
  have h : Rat.floor (x + mkRat 1 2) = ⌊x + mkRat 1 2⌋ := rfl
  rw [jsRound, h]
  norm_num [Rat.mkRat_eq_div]

theorem round2_eq_div (x : ℚ) : round2 x = (jsRound (x * 100) : ℚ) / 100 := by
  simp [round2, Rat.mkRat_eq_div]

theorem jsAbs_eq_abs (x : ℚ) : jsAbs x = |x| := by
  unfold jsAbs
  split
  · rw [abs_of_neg]; assumption
  · rw [abs_of_nonneg]; linarith

/-! ## Validator lemmas -/

theorem checkRequiredFields_totals (je : JournalEntry) (v : JournalEntryValidation) :
    (checkRequiredFields je v).total_debit = v.total_debit ∧
    (checkRequiredFields je v).total_credit = v.total_credit ∧
    (checkRequiredFields je v).difference = v.difference ∧
    (checkRequiredFields je v).warnings = v.warnings := by
  unfold checkRequiredFields
  split <;> split <;> simp

theorem checkRequiredFields_of_present (je : JournalEntry) (v : JournalEntryValidation)
    (hp : ¬ je.posting_date = "") (hc : ¬ je.company = "") :
    checkRequiredFields je v = v := by
  unfold checkRequiredFields
  simp [hp, hc]

theorem validateAccountStep_total_debit (v : JournalEntryValidation)
    (a : JournalEntryAccount) :
    (validateAccountStep v a).total_debit =
      v.total_debit + (if a.account = "" then 0 else a.debit_in_account_currency.getD 0) := by
  unfold validateAccountStep
  split
  · simp
  · dsimp only
    split <;> split <;> simp

theorem validateAccountStep_total_credit (v : JournalEntryValidation)
    (a : JournalEntryAccount) :
    (validateAccountStep v a).total_credit =
      v.total_credit + (if a.account = "" then 0 else a.credit_in_account_currency.getD 0) := by
  unfold validateAccountStep
  split
  · simp
  · dsimp only
    split <;> split <;> simp

theorem foldl_step_total_debit (l : List JournalEntryAccount) :
    ∀ v : JournalEntryValidation,
      (l.foldl validateAccountStep v).total_debit = v.total_debit + sumDebits l := by
  induction l with
  | nil => intro v; simp [sumDebits]
  | cons a t ih =>
    intro v
    rw [List.foldl_cons, ih, validateAccountStep_total_debit]
    simp only [sumDebits, List.map_cons, List.sum_cons]
    ring

theorem foldl_step_total_credit (l : List JournalEntryAccount) :
    ∀ v : JournalEntryValidation,
      (l.foldl validateAccountStep v).total_credit = v.total_credit + sumCredits l := by
  induction l with
  | nil => intro v; simp [sumCredits]
  | cons a t ih =>
    intro v
    rw [List.foldl_cons, ih, validateAccountStep_total_credit]
    simp only [sumCredits, List.map_cons, List.sum_cons]
    ring

theorem validateAccountStep_goodline (v : JournalEntryValidation)
    (a : JournalEntryAccount) (h1 : ¬ a.account = "")
    (h2 : ¬ (a.debit_in_account_currency.getD 0 = 0 ∧
             a.credit_in_account_currency.getD 0 = 0)) :
    (validateAccountStep v a).errors = v.errors ∧
    (validateAccountStep v a).is_valid = v.is_valid := by
  unfold validateAccountStep
  simp only [h1, if_false, h2]
  split <;> simp [h2]

theorem foldl_step_errors (l : List JournalEntryAccount)
    (h : ∀ a ∈ l, ¬ a.account = "" ∧
      ¬ (a.debit_in_account_currency.getD 0 = 0 ∧
         a.credit_in_account_currency.getD 0 = 0)) :
    ∀ v : JournalEntryValidation,
      (l.foldl validateAccountStep v).errors = v.errors ∧
      (l.foldl validateAccountStep v).is_valid = v.is_valid := by
  induction l with
  | nil => intro v; simp
  | cons a t ih =>
    intro v
    have ha := h a (List.mem_cons_self a t)
    have hstep := validateAccountStep_goodline v a ha.1 ha.2
    have ht := ih (fun x hx => h x (List.mem_cons_of_mem a hx)) (validateAccountStep v a)
    rw [List.foldl_cons]
    exact ⟨ht.1.trans hstep.1, ht.2.trans hstep.2⟩

theorem validateAccountStep_validP (v : JournalEntryValidation)
    (a : JournalEntryAccount) (h : v.is_valid = v.errors.isEmpty) :
    (validateAccountStep v a).is_valid = (validateAccountStep v a).errors.isEmpty := by
  unfold validateAccountStep
  split
  · simp
  · dsimp only
    split <;> split <;> simp [h]

theorem foldl_step_validP (l : List JournalEntryAccount) :
    ∀ v : JournalEntryValidation, v.is_valid = v.errors.isEmpty →
      (l.foldl validateAccountStep v).is_valid =
        (l.foldl validateAccountStep v).errors.isEmpty := by
  induction l with
  | nil => intro v h; simpa using h
  | cons a t ih =>
    intro v h
    rw [List.foldl_cons]
    exact ih _ (validateAccountStep_validP v a h)

theorem checkRequiredFields_validP (je : JournalEntry) (v : JournalEntryValidation)
    (h : v.is_valid = v.errors.isEmpty) :
    (checkRequiredFields je v).is_valid = (checkRequiredFields je v).errors.isEmpty := by
  unfold checkRequiredFields
  split <;> split <;> simp [h]

theorem finalizeTotals_validP (v : JournalEntryValidation)
    (h : v.is_valid = v.errors.isEmpty) :
    (finalizeTotals v).is_valid = (finalizeTotals v).errors.isEmpty := by
  unfold finalizeTotals
  dsimp only
  split <;> simp [h]

theorem checkMinimumLines_totals (je : JournalEntry) (v : JournalEntryValidation) :
    (checkMinimumLines je v).total_debit = v.total_debit ∧
    (checkMinimumLines je v).total_credit = v.total_credit ∧
    (checkMinimumLines je v).warnings = v.warnings := by
  unfold checkMinimumLines
  split <;> simp

theorem checkMinimumLines_of_enough (je : JournalEntry) (v : JournalEntryValidation)
    (h : ¬ je.accounts.length < 2) : checkMinimumLines je v = v := by
  unfold checkMinimumLines
  rw [if_neg h]

theorem checkMinimumLines_validP (je : JournalEntry) (v : JournalEntryValidation)
    (h : v.is_valid = v.errors.isEmpty) :
    (checkMinimumLines je v).is_valid = (checkMinimumLines je v).errors.isEmpty := by
  unfold checkMinimumLines
  split <;> simp [h]

theorem finalizeTotals_total_debit (v : JournalEntryValidation) :
    (finalizeTotals v).total_debit = round2 v.total_debit := by
  unfold finalizeTotals
  dsimp only
  split <;> rfl

theorem finalizeTotals_total_credit (v : JournalEntryValidation) :
    (finalizeTotals v).total_credit = round2 v.total_credit := by
  unfold finalizeTotals
  dsimp only
  split <;> rfl

theorem finalizeTotals_difference (v : JournalEntryValidation) :
    (finalizeTotals v).difference =
      round2 (round2 v.total_debit - round2 v.total_credit) := by
  unfold finalizeTotals
  dsimp only
  split <;> rfl

theorem finalizeTotals_unbalanced (v : JournalEntryValidation)
    (h : mkRat 1 100 < jsAbs (round2 (round2 v.total_debit - round2 v.total_credit))) :
    (finalizeTotals v).is_valid = false ∧
    (finalizeTotals v).errors = v.errors ++
      [.debitsNotEqualCredits (round2 v.total_debit) (round2 v.total_credit)
        (round2 (round2 v.total_debit - round2 v.total_credit))] := by
  unfold finalizeTotals
  dsimp only
  rw [if_pos h]
  exact ⟨rfl, rfl⟩

theorem finalizeTotals_balanced (v : JournalEntryValidation)
    (h : ¬ mkRat 1 100 < jsAbs (round2 (round2 v.total_debit - round2 v.total_credit))) :
    (finalizeTotals v).is_valid = v.is_valid ∧
    (finalizeTotals v).errors = v.errors := by
  unfold finalizeTotals
  dsimp only
  rw [if_neg h]
  exact ⟨rfl, rfl⟩

/-- The validator's verdict is exactly "no errors were appended": warnings
never affect `is_valid`. -/
theorem validateJournalEntry_valid_iff (je : JournalEntry) :
    (validateJournalEntry je).is_valid = (validateJournalEntry je).errors.isEmpty := by
  unfold validateJournalEntry
  have h0 : initialValidation.is_valid = initialValidation.errors.isEmpty := rfl
  have h2 := checkRequiredFields_validP je initialValidation h0
  split
  · simp
  · exact finalizeTotals_validP _
      (foldl_step_validP _ _ (checkMinimumLines_validP _ _ h2))

/-- After the per-account loop the accumulated totals are the sums over the
lines with a present account name. -/
theorem validateJournalEntry_fold_totals (je : JournalEntry) :
    (je.accounts.foldl validateAccountStep
      (checkMinimumLines je (checkRequiredFields je initialValidation))).total_debit =
        sumDebits je.accounts ∧
    (je.accounts.foldl validateAccountStep
      (checkMinimumLines je (checkRequiredFields je initialValidation))).total_credit =
        sumCredits je.accounts := by
  have hcr := checkRequiredFields_totals je initialValidation
  have hcm := checkMinimumLines_totals je (checkRequiredFields je initialValidation)
  constructor
  · rw [foldl_step_total_debit, hcm.1, hcr.1]
    simp [initialValidation]
  · rw [foldl_step_total_credit, hcm.2.1, hcr.2.1]
    simp [initialValidation]

/-! ## Claim theorems -/

/-- C1: for every draft, with `total_debit` and `total_credit` rounded to
cents and `difference` their difference rounded to cents, if
`|difference| > 0.01` then `validateJournalEntry` returns `is_valid = false`
and appends the error naming both totals and the difference. -/
theorem validateJournalEntry_unbalanced_error (je : JournalEntry)
    (h : mkRat 1 100 < jsAbs (round2 (round2 (sumDebits je.accounts) -
          round2 (sumCredits je.accounts)))) :
    (validateJournalEntry je).is_valid = false ∧
    (validateJournalEntry je).total_debit = round2 (sumDebits je.accounts) ∧
    (validateJournalEntry je).total_credit = round2 (sumCredits je.accounts) ∧
    (validateJournalEntry je).difference =
      round2 (round2 (sumDebits je.accounts) - round2 (sumCredits je.accounts)) ∧
    JEError.debitsNotEqualCredits (round2 (sumDebits je.accounts))
      (round2 (sumCredits je.accounts))
      (round2 (round2 (sumDebits je.accounts) - round2 (sumCredits je.accounts))) ∈
      (validateJournalEntry je).errors := by
  have hne : ¬ je.accounts = [] := by
    intro hemp
    rw [hemp] at h
    revert h
    decide
  have hf := validateJournalEntry_fold_totals je
  unfold validateJournalEntry
  dsimp only
  rw [if_neg hne]
  have hub := finalizeTotals_unbalanced _ (by rw [hf.1, hf.2]; exact h)
  refine ⟨hub.1, ?_, ?_, ?_, ?_⟩
  · rw [finalizeTotals_total_debit, hf.1]
  · rw [finalizeTotals_total_credit, hf.2]
  · rw [finalizeTotals_difference, hf.1, hf.2]
  · rw [hub.2, hf.1, hf.2]
    simp

theorem validateJournalEntry_unbalanced_error_witness :
    mkRat 1 100 < jsAbs (round2 (round2 (sumDebits jeUnbal.accounts) -
      round2 (sumCredits jeUnbal.accounts))) ∧
    (validateJournalEntry jeUnbal).is_valid = false ∧
    JEError.debitsNotEqualCredits (round2 (sumDebits jeUnbal.accounts))
      (round2 (sumCredits jeUnbal.accounts))
      (round2 (round2 (sumDebits jeUnbal.accounts) -
        round2 (sumCredits jeUnbal.accounts))) ∈ (validateJournalEntry jeUnbal).errors :=
  ⟨by decide,
   (validateJournalEntry_unbalanced_error jeUnbal (by decide)).1,
   (validateJournalEntry_unbalanced_error jeUnbal (by decide)).2.2.2.2⟩

/-- C2 counterexample: a draft with 2 lines whose totals balance (0 = 0)
but whose lines all carry neither debit nor credit is rejected, so balance
within tolerance alone does not make `validateJournalEntry` accept. -/
theorem validateJournalEntry_balanced_claim_false :
    2 ≤ jeZeroLines.accounts.length ∧
    jsAbs (round2 (round2 (sumDebits jeZeroLines.accounts) -
      round2 (sumCredits jeZeroLines.accounts))) ≤ mkRat 1 100 ∧
    ¬ ((validateJournalEntry jeZeroLines).is_valid = true ∧
       (validateJournalEntry jeZeroLines).errors = []) := by decide

/-- C2 (amended): for every draft with present `posting_date` and `company`,
at least 2 lines, every line carrying an account name and at least one
non-zero side, and totals balancing within tolerance, `validateJournalEntry`
returns `is_valid = true` with no errors. -/
theorem validateJournalEntry_balanced_valid (je : JournalEntry)
    (hp : ¬ je.posting_date = "") (hc : ¬ je.company = "")
    (hlen : 2 ≤ je.accounts.length)
    (hgood : ∀ a ∈ je.accounts, ¬ a.account = "" ∧
      ¬ (a.debit_in_account_currency.getD 0 = 0 ∧
         a.credit_in_account_currency.getD 0 = 0))
    (hbal : jsAbs (round2 (round2 (sumDebits je.accounts) -
      round2 (sumCredits je.accounts))) ≤ mkRat 1 100) :
    (validateJournalEntry je).is_valid = true ∧
    (validateJournalEntry je).errors = [] := by
  have hne : ¬ je.accounts = [] := by
    intro hemp
    rw [hemp] at hlen
    simp at hlen
  have hf := validateJournalEntry_fold_totals je
  have hferr := foldl_step_errors je.accounts hgood
    (checkMinimumLines je (checkRequiredFields je initialValidation))
  have hcrf := checkRequiredFields_of_present je initialValidation hp hc
  have hcm := checkMinimumLines_of_enough je (checkRequiredFields je initialValidation)
    (by omega)
  unfold validateJournalEntry
  dsimp only
  rw [if_neg hne]
  have hb := finalizeTotals_balanced _ (by rw [hf.1, hf.2]; exact not_lt.mpr hbal)
  constructor
  · rw [hb.1, hferr.2, hcm, hcrf]
    rfl
  · rw [hb.2, hferr.1, hcm, hcrf]
    rfl

theorem validateJournalEntry_balanced_valid_witness :
    (validateJournalEntry jeBalanced).is_valid = true ∧
    (validateJournalEntry jeBalanced).errors = [] :=
  validateJournalEntry_balanced_valid jeBalanced (by decide) (by decide)
    (by decide) (by decide) (by decide)

/-- C4 counterexample: with an empty accounts array and falsy `posting_date`
and `company`, `validateJournalEntry` reports three errors, not exactly
one. -/
theorem validateJournalEntry_empty_claim_false :
    jeEmptyAll.accounts = [] ∧
    (validateJournalEntry jeEmptyAll).errors =
      [.postingDateRequired, .companyRequired, .atLeastOneAccountRequired] ∧
    ¬ (validateJournalEntry jeEmptyAll).errors.length = 1 := by decide

/-- C4 (amended): for every draft with an empty accounts array,
`validateJournalEntry` returns immediately with `is_valid = false`, totals
and difference zero, no warnings and no line-level checks, and its errors are
exactly the required-field errors for a falsy `posting_date` and a falsy
`company` — in that order — followed by the at-least-one-account error;
hence that error is the only one exactly when `posting_date` and `company`
are present. -/
theorem validateJournalEntry_empty_accounts (je : JournalEntry)
    (hemp : je.accounts = []) :
    validateJournalEntry je =
      { is_valid := false, total_debit := 0, total_credit := 0, difference := 0,
        errors :=
          (if je.posting_date = "" then [.postingDateRequired] else []) ++
          (if je.company = "" then [.companyRequired] else []) ++
          [.atLeastOneAccountRequired],
        warnings := [] } ∧
    ((validateJournalEntry je).errors = [.atLeastOneAccountRequired] ↔
      ¬ je.posting_date = "" ∧ ¬ je.company = "") := by
  have heq : validateJournalEntry je =
      { is_valid := false, total_debit := 0, total_credit := 0, difference := 0,
        errors :=
          (if je.posting_date = "" then [.postingDateRequired] else []) ++
          (if je.company = "" then [.companyRequired] else []) ++
          [.atLeastOneAccountRequired],
        warnings := [] } := by
    unfold validateJournalEntry
    dsimp only
    rw [if_pos hemp]
    unfold checkRequiredFields initialValidation
    dsimp only
    split <;> split <;> rfl
  refine ⟨heq, ?_⟩
  rw [heq]
  by_cases hp : je.posting_date = "" <;> by_cases hc : je.company = "" <;>
    simp [hp, hc]

theorem validateJournalEntry_empty_accounts_witness :
    (validateJournalEntry jeEmptyAccounts).errors = [.atLeastOneAccountRequired] ∧
    ¬ (validateJournalEntry jeEmptyAll).errors = [.atLeastOneAccountRequired] :=
  ⟨((validateJournalEntry_empty_accounts jeEmptyAccounts (by decide)).2).mpr
     ⟨by decide, by decide⟩,
   fun h =>
     (((validateJournalEntry_empty_accounts jeEmptyAll (by decide)).2).mp h).1 rfl⟩

/-- C5 counterexample: a line whose debit and credit are both non-zero (both
negative) gets no warning — the source's check is `debit > 0 && credit > 0`,
not non-zero-ness. -/
theorem validateJournalEntry_nonzero_warning_claim_false :
    (∃ a ∈ jeNegBoth.accounts,
       ¬ a.debit_in_account_currency.getD 0 = 0 ∧
       ¬ a.credit_in_account_currency.getD 0 = 0) ∧
    (validateJournalEntry jeNegBoth).warnings = [] := by decide

/-- C5 (amended): a line with both sides strictly positive appends the
both-sides warning and no error, leaving `is_valid` untouched; a line with
both sides zero (and a present account) appends an error and invalidates;
`is_valid` is exactly "no errors", so warnings never affect it; and a
balanced draft carrying a both-sides-positive line is still reported
valid. -/
theorem validateJournalEntry_warning_error_policy :
    (∀ (v : JournalEntryValidation) (a : JournalEntryAccount),
      ¬ a.account = "" →
      0 < a.debit_in_account_currency.getD 0 →
      0 < a.credit_in_account_currency.getD 0 →
      (validateAccountStep v a).warnings =
        v.warnings ++ [.bothDebitAndCredit a.account] ∧
      (validateAccountStep v a).errors = v.errors ∧
      (validateAccountStep v a).is_valid = v.is_valid) ∧
    (∀ (v : JournalEntryValidation) (a : JournalEntryAccount),
      ¬ a.account = "" →
      a.debit_in_account_currency.getD 0 = 0 →
      a.credit_in_account_currency.getD 0 = 0 →
      (validateAccountStep v a).errors =
        v.errors ++ [.neitherDebitNorCredit a.account] ∧
      (validateAccountStep v a).is_valid = false) ∧
    (∀ je : JournalEntry,
      (validateJournalEntry je).is_valid = (validateJournalEntry je).errors.isEmpty) ∧
    ((validateJournalEntry jeBothPos).is_valid = true ∧
     (validateJournalEntry jeBothPos).warnings =
       [.bothDebitAndCredit "1111 - Checking - Personal"]) := by
  refine ⟨?_, ?_, validateJournalEntry_valid_iff, by decide⟩
  · intro v a h1 h2 h3
    unfold validateAccountStep
    rw [if_neg h1]
    dsimp only
    rw [if_neg (fun hz => absurd hz.1 (ne_of_gt h2)), if_pos ⟨h2, h3⟩]
    exact ⟨rfl, rfl, rfl⟩
  · intro v a h1 h2 h3
    unfold validateAccountStep
    rw [if_neg h1]
    dsimp only
    rw [if_pos ⟨h2, h3⟩,
        if_neg (fun hw => by rw [h2] at hw; exact lt_irrefl 0 hw.1)]
    exact ⟨rfl, rfl⟩

theorem validateJournalEntry_warning_error_policy_witness :
    (validateAccountStep initialValidation acctBothPos).warnings =
      initialValidation.warnings ++
        [.bothDebitAndCredit "1111 - Checking - Personal"] ∧
    (validateAccountStep initialValidation acctZeroZero).errors =
      initialValidation.errors ++
        [.neitherDebitNorCredit "5200 - Utilities - Personal"] :=
  ⟨(validateJournalEntry_warning_error_policy.1 initialValidation acctBothPos
      (by decide) (by decide) (by decide)).1,
   (validateJournalEntry_warning_error_policy.2.1 initialValidation acctZeroZero
      (by decide) (by decide) (by decide)).1⟩

/-- C9: a line with a present account name and strictly negative amounts on
both sides triggers neither the both-sides warning nor the
neither-debit-nor-credit error, while its amounts still accumulate into the
totals; a draft containing such a line can still be reported valid. -/
theorem validateAccountStep_negative_amounts :
    (∀ (v : JournalEntryValidation) (a : JournalEntryAccount),
      ¬ a.account = "" →
      a.debit_in_account_currency.getD 0 < 0 →
      a.credit_in_account_currency.getD 0 < 0 →
      validateAccountStep v a =
        { v with total_debit := v.total_debit + a.debit_in_account_currency.getD 0,
                 total_credit := v.total_credit + a.credit_in_account_currency.getD 0 }) ∧
    (jeNegPos.accounts.head? = some
      { account := "5200 - Utilities - Personal",
        debit_in_account_currency := some (-5),
        credit_in_account_currency := some (-5) } ∧
     (validateJournalEntry jeNegPos).is_valid = true ∧
     (validateJournalEntry jeNegPos).errors = []) := by
  refine ⟨?_, by decide⟩
  intro v a h1 h2 h3
  unfold validateAccountStep
  rw [if_neg h1]
  dsimp only
  rw [if_neg (fun hz => absurd hz.1 (ne_of_lt h2)),
      if_neg (fun hw => (lt_asymm h2) hw.1)]

theorem validateAccountStep_negative_amounts_witness :
    validateAccountStep initialValidation
      { account := "5200 - Utilities - Personal",
        debit_in_account_currency := some (-5),
        credit_in_account_currency := some (-5) } =
      { initialValidation with
          total_debit := initialValidation.total_debit + (-5),
          total_credit := initialValidation.total_credit + (-5) } ∧
    (validateJournalEntry jeNegPos).is_valid = true :=
  ⟨validateAccountStep_negative_amounts.1 initialValidation
      { account := "5200 - Utilities - Personal",
        debit_in_account_currency := some (-5),
        credit_in_account_currency := some (-5) }
      (by decide) (by decide) (by decide),
   validateAccountStep_negative_amounts.2.2.1⟩

/-! ## Search-filter lemmas and theorems -/

theorem txKeep_eq_true_iff (minAmount maxAmount : Option ℚ) (t : BankTransaction) :
    txKeep minAmount maxAmount t = true ↔
      ((∀ m, minAmount = some m → m ≤ txAmount t) ∧
       (∀ m, maxAmount = some m → txAmount t ≤ m)) := by
  unfold txKeep
  dsimp only
  cases minAmount <;> cases maxAmount <;> simp [not_lt]

/-- C6 counterexample: a transaction with deposit −5 and withdrawal 250 is
dropped by the amount filter for the range [100, 1000], although the amount
as the claim computes it (deposit if positive, else withdrawal) is 250 and
lies in the range: JavaScript `||` keeps a negative (truthy) deposit. -/
theorem searchAmountFilter_specAmount_claim_false :
    searchAmountFilter (some 100) (some 1000) [txNegDeposit] = [] ∧
    specAmount txNegDeposit = 250 ∧
    (100 : ℚ) ≤ specAmount txNegDeposit ∧ specAmount txNegDeposit ≤ 1000 := by
  decide

/-- C6 (amended): the filter retains a candidate transaction exactly when its
amount — the deposit when that is non-zero, else the withdrawal when that is
non-zero, else 0 — meets the given bounds; on the spec's three-transaction
example with range [100, 1000] only the 250 withdrawal survives. -/
theorem searchAmountFilter_spec :
    (∀ (minAmount maxAmount : Option ℚ) (ts : List BankTransaction)
        (t : BankTransaction),
      t ∈ searchAmountFilter minAmount maxAmount ts ↔
        (t ∈ ts ∧ (∀ m, minAmount = some m → m ≤ txAmount t) ∧
         (∀ m, maxAmount = some m → txAmount t ≤ m))) ∧
    searchAmountFilter (some 100) (some 1000)
      [txDeposit1500, txWithdraw250, txWithdraw45] = [txWithdraw250] := by
  refine ⟨?_, by decide⟩
  intro minAmount maxAmount ts t
  unfold searchAmountFilter
  split
  · rw [List.mem_filter, txKeep_eq_true_iff]
  · rename_i hnone
    have hmin : minAmount = none := by
      cases minAmount
      · rfl
      · exact absurd (Or.inl rfl) hnone
    have hmax : maxAmount = none := by
      cases maxAmount
      · rfl
      · exact absurd (Or.inr rfl) hnone
    simp [hmin, hmax]

theorem searchAmountFilter_spec_witness :
    txWithdraw250 ∈ searchAmountFilter (some 100) (some 1000)
      [txDeposit1500, txWithdraw250, txWithdraw45] :=
  (searchAmountFilter_spec.1 (some 100) (some 1000)
    [txDeposit1500, txWithdraw250, txWithdraw45] txWithdraw250).mpr
    ⟨by decide, by decide, by decide⟩

/-! ## Client-operation theorems -/

/-- C7: when validation is not skipped and the draft is invalid,
`createJournalEntry` fails with the validation-failure error and issues no
gateway call at all. -/
theorem createJournalEntry_invalid_no_network (gw : Gateway) (je : JournalEntry)
    (h : (validateJournalEntry je).is_valid = false) :
    createJournalEntry gw je false =
      (.error (.failedToCreateJournalEntry
        (.validationFailed (validateJournalEntry je).errors)), []) := by
  unfold createJournalEntry
  rw [if_pos ⟨rfl, h⟩]

theorem createJournalEntry_invalid_no_network_witness :
    createJournalEntry gwAllOk jeUnbal false =
      (.error (.failedToCreateJournalEntry
        (.validationFailed [.debitsNotEqualCredits 100 50 50])), []) := by
  have h : (validateJournalEntry jeUnbal).errors =
      [.debitsNotEqualCredits 100 50 50] := by decide
  rw [createJournalEntry_invalid_no_network gwAllOk jeUnbal (by decide), h]

/-- C8: with submit requested, when the gateway create call succeeds and the
subsequent submit call fails, the create_journal_entry handler replies with
the `Failed to create journal entry: ...` error even though the create call
was already issued (and is never rolled back), so the created entry is not
reported to the caller. -/
theorem createJournalEntryHandler_submit_failure (gw : Gateway) (je : JournalEntry)
    (name m : String)
    (hc : gw.createDocResponse "Journal Entry" je = .ok { name := name })
    (hs : gw.submitResponse name = .error m)
    (hv : (validateJournalEntry je).is_valid = true) :
    createJournalEntryHandler gw true (some je) (some false) (some true) =
      (.errorText (.failedToCreateJournalEntry
         (.failedToSubmitJournalEntry name
           (.failedToCallMethod "frappe.client.submit" (rawMsg m)))),
       [.createDocPost "Journal Entry" je,
        .methodPost "frappe.client.submit" name]) ∧
    GatewayCall.createDocPost "Journal Entry" je ∈
      (createJournalEntryHandler gw true (some je) (some false) (some true)).2 := by
  have heq : createJournalEntryHandler gw true (some je) (some false) (some true) =
      (.errorText (.failedToCreateJournalEntry
         (.failedToSubmitJournalEntry name
           (.failedToCallMethod "frappe.client.submit" (rawMsg m)))),
       [.createDocPost "Journal Entry" je,
        .methodPost "frappe.client.submit" name]) := by
    simp only [createJournalEntryHandler, createJournalEntry, createDocument,
      submitJournalEntry, callMethodSubmit, hc, hs, hv, Option.getD]
    simp
    rw [hs]
  refine ⟨heq, ?_⟩
  rw [heq]
  simp

theorem createJournalEntryHandler_submit_failure_witness :
    createJournalEntryHandler gwSubmitFails true (some jeBalanced)
        (some false) (some true) =
      (.errorText (.failedToCreateJournalEntry
         (.failedToSubmitJournalEntry "JV-2025-00001"
           (.failedToCallMethod "frappe.client.submit"
             (rawMsg "Request failed with status code 417")))),
       [.createDocPost "Journal Entry" jeBalanced,
        .methodPost "frappe.client.submit" "JV-2025-00001"]) ∧
    GatewayCall.createDocPost "Journal Entry" jeBalanced ∈
      (createJournalEntryHandler gwSubmitFails true (some jeBalanced)
        (some false) (some true)).2 :=
  createJournalEntryHandler_submit_failure gwSubmitFails jeBalanced
    "JV-2025-00001" "Request failed with status code 417" rfl rfl (by decide)

/-- C10: `validateJournalEntry` as a client operation is deterministic and
side-effect free: its result does not depend on the gateway, two successive
validations of the same draft agree, and it issues no network call. -/
theorem validateJournalEntryClient_pure (gw gw' : Gateway) (je : JournalEntry) :
    validateJournalEntryClient gw je = validateJournalEntryClient gw' je ∧
    (validateTwice gw je).1 = (validateTwice gw je).2 ∧
    (validateJournalEntryClient gw je).2 = [] ∧
    (validateJournalEntryClient gw je).1 = validateJournalEntry je :=
  ⟨rfl, rfl, rfl, rfl⟩

/-! ## Batch-orchestrator lemmas and theorems -/

theorem runBatchItem_events_idx (gw : Gateway) (au : Bool) (i : Nat)
    (je : JournalEntry) : ∀ e ∈ (runBatchItem gw au i je).2, e.idx = i := by
  intro e he
  unfold runBatchItem at he
  dsimp only at he
  split at he
  · simp at he
    subst he
    rfl
  · split at he
    · rcases (by simpa using he : e = .validated i ∨ e = .sentCreate i) with h | h <;>
        subst h <;> rfl
    · split at he
      · split at he <;>
          rcases (by simpa using he :
            e = .validated i ∨ e = .sentCreate i ∨ e = .sentSubmit i) with h | h | h <;>
          subst h <;> rfl
      · rcases (by simpa using he : e = .validated i ∨ e = .sentCreate i) with h | h <;>
          subst h <;> rfl

theorem runBatchGo_cons_stop (gw : Gateway) (au : Bool) (i : Nat)
    (je : JournalEntry) (rest : List JournalEntry)
    (hf : (runBatchItem gw au i je).1.isFailure = true) :
    runBatchGo gw au true i (je :: rest) =
      ((runBatchItem gw au i je).1 :: rest.map (fun _ => .NotAttempted),
       (runBatchItem gw au i je).2) := by
  unfold runBatchGo
  dsimp only
  rw [if_pos ⟨rfl, hf⟩]

theorem runBatchGo_cons_continue (gw : Gateway) (au s : Bool) (i : Nat)
    (je : JournalEntry) (rest : List JournalEntry)
    (hf : ¬ (s = true ∧ (runBatchItem gw au i je).1.isFailure = true)) :
    runBatchGo gw au s i (je :: rest) =
      ((runBatchItem gw au i je).1 :: (runBatchGo gw au s (i + 1) rest).1,
       (runBatchItem gw au i je).2 ++ (runBatchGo gw au s (i + 1) rest).2) := by
  simp only [runBatchGo]
  rw [if_neg hf]

theorem runBatchGo_length (gw : Gateway) (au s : Bool) :
    ∀ (l : List JournalEntry) (i : Nat),
      ((runBatchGo gw au s i l).1).length = l.length := by
  intro l
  induction l with
  | nil => intro i; rfl
  | cons je rest ih =>
    intro i
    by_cases hf : s = true ∧ (runBatchItem gw au i je).1.isFailure = true
    · obtain ⟨hs, hff⟩ := hf
      subst hs
      rw [runBatchGo_cons_stop gw au i je rest hff]
      simp
    · rw [runBatchGo_cons_continue gw au s i je rest hf]
      simp [ih]

theorem runBatchGo_stop (gw : Gateway) (au : Bool) :
    ∀ (l : List JournalEntry) (i j : Nat) (o : BatchItemOutcome),
      ((runBatchGo gw au true i l).1)[j]? = some o → o.isFailure = true →
      (∀ k, j < k → k < l.length →
        ((runBatchGo gw au true i l).1)[k]? = some .NotAttempted) ∧
      (∀ e ∈ (runBatchGo gw au true i l).2, e.idx ≤ i + j) := by
  intro l
  induction l with
  | nil =>
    intro i j o hj
    simp [runBatchGo] at hj
  | cons je rest ih =>
    intro i j o hj hfail
    by_cases hf : (runBatchItem gw au i je).1.isFailure = true
    · rw [runBatchGo_cons_stop gw au i je rest hf] at hj ⊢
      cases j with
      | zero =>
        constructor
        · intro k hk hklen
          obtain ⟨k', rfl⟩ : ∃ k', k = k' + 1 := ⟨k - 1, by omega⟩
          have hk' : k' < rest.length := by
            simp at hklen
            omega
          rw [List.getElem?_cons_succ, List.getElem?_map,
              List.getElem?_eq_getElem hk']
          rfl
        · intro e he
          have := runBatchItem_events_idx gw au i je e he
          omega
      | succ j' =>
        rw [List.getElem?_cons_succ, List.getElem?_map] at hj
        rcases hrest : rest[j']? with _ | x <;> rw [hrest] at hj
        · simp at hj
        · simp at hj
          rw [← hj] at hfail
          simp [BatchItemOutcome.isFailure] at hfail
    · rw [runBatchGo_cons_continue gw au true i je rest (fun hcon => hf hcon.2)] at hj ⊢
      cases j with
      | zero =>
        rw [List.getElem?_cons_zero] at hj
        simp at hj
        rw [← hj] at hfail
        exact absurd hfail hf
      | succ j' =>
        rw [List.getElem?_cons_succ] at hj
        have IH := ih (i + 1) j' o hj hfail
        constructor
        · intro k hk hklen
          obtain ⟨k', rfl⟩ : ∃ k', k = k' + 1 := ⟨k - 1, by omega⟩
          rw [List.getElem?_cons_succ]
          refine IH.1 k' (by omega) ?_
          simp at hklen
          omega
        · intro e he
          rcases List.mem_append.mp he with h | h
          · have := runBatchItem_events_idx gw au i je e h
            omega
          · have := IH.2 e h
            omega

/-- C3: the batch orchestrator (modelled from the spec) returns one outcome
per input entry, in input order, the outcome list having exactly the input's
length; and with `stopOnError`, once some entry's outcome is a failure
(`ValidationFailed` or `GatewayFailed`), every later entry's outcome is
`NotAttempted` and no later entry is validated or sent to the gateway. -/
theorem runBatch_spec (gw : Gateway) (entries : List JournalEntry)
    (autoSubmit stopOnError : Bool) :
    (runBatch gw entries autoSubmit stopOnError).1.outcomes.length = entries.length ∧
    (stopOnError = true →
      ∀ j o, ((runBatch gw entries autoSubmit stopOnError).1.outcomes)[j]? = some o →
        o.isFailure = true →
        ∀ k, j < k →
          (k < entries.length →
            ((runBatch gw entries autoSubmit stopOnError).1.outcomes)[k]? =
              some .NotAttempted) ∧
          ∀ e ∈ (runBatch gw entries autoSubmit stopOnError).2, e.idx ≠ k) := by
  constructor
  · simpa [runBatch] using runBatchGo_length gw autoSubmit stopOnError entries 0
  · intro hstop j o hj hfail k hjk
    subst hstop
    have h := runBatchGo_stop gw autoSubmit entries 0 j o
      (by simpa [runBatch] using hj) hfail
    constructor
    · intro hk
      simpa [runBatch] using h.1 k hjk hk
    · intro e he
      have := h.2 e (by simpa [runBatch] using he)
      omega

theorem runBatch_spec_witness :
    ((runBatch gwAllOk [jeBalanced, jeUnbal, jeBothPos] false true).1.outcomes)[2]? =
      some .NotAttempted ∧
    ∀ e ∈ (runBatch gwAllOk [jeBalanced, jeUnbal, jeBothPos] false true).2,
      e.idx ≠ 2 :=
  have h := (runBatch_spec gwAllOk [jeBalanced, jeUnbal, jeBothPos] false true).2
    rfl 1 (.ValidationFailed [.debitsNotEqualCredits 100 50 50])
    (by decide) (by decide) 2 (by decide)
  ⟨h.1 (by decide), h.2⟩

end ErpNext
